import Mathlib

/-!
Shallow embedding of the ArduCopterMega flight-control core (the main
`.pde` sketch) and of the SITL X-Plane simulator bridge
(`libraries/SITL/SIM_XPlane.cpp`), with theorems settling the frozen
claims about the natural-language specification.

Machine integers are modelled as `Nat`/`Int`; 8-bit counters that the
source increments without a guard are reduced modulo 256 at the point of
increment.  Functions of the repository that are referenced but whose
source is not available (for example `init_home`, `wrap_360`) are
modelled from the specification text and marked as such in their doc
comments.
-/

namespace ArduCopter

/-! ## GPS acquisition and health (`update_GPS`, medium-loop case 0) -/

/-- A GPS driver reading as seen by `update_GPS`: the read-and-clear
`new_data` flag, the fix-valid flag, and the fixed-point coordinates
(`deg * 1e7`) plus altitude (cm). -/
structure GpsInput where
  new_data : Bool
  fix : Bool
  latitude : Int
  longitude : Int
  altitude : Int

/-- A location record `{lat, lng, alt}` in the fixed-point representation
used throughout the sketch. -/
structure Loc where
  lat : Int
  lng : Int
  alt : Int
deriving DecidableEq

/-- The slice of global state read and written by `update_GPS` and by the
medium-loop GPS phase: the ground-start countdown, the GPS failure
counter, the sticky disabled flag, the current location, home, and the
performance fix counter. -/
structure GpsState where
  ground_start_count : Nat
  GPS_failure_counter : Nat
  GPS_disabled : Bool
  current_loc : Loc
  home : Loc
  home_is_set : Bool
  gps_fix_count : Nat
deriving DecidableEq

/-- Modelled from the spec: `init_home` is repository code not present in
the sources given; per §4.5 it latches `home` from the current fix and
altitude (and marks home as set). -/
def init_home (i : GpsInput) (s : GpsState) : GpsState :=
  { s with home := { lat := i.latitude, lng := i.longitude, alt := i.altitude },
           home_is_set := true }

/-- Embedding of `update_GPS` (part_000 lines 752-805).  On a new valid
fix: reset the failure counter to 3, bump the fix count, run the
ground-start countdown — at countdown 1 the code inspects the *stored*
`current_loc.lat` (written from the previous fix) and either restarts the
countdown at 5 (if it is zero) or latches home via `init_home`, sets
`current_loc.alt` from the fix and zeroes the countdown — and finally
stores the fix's longitude/latitude into `current_loc`.  Without a new
valid fix, decrement the failure counter if positive. -/
def update_GPS (i : GpsInput) (s : GpsState) : GpsState :=
  if i.new_data && i.fix then
    let s1 : GpsState := { s with GPS_failure_counter := 3,
                                  gps_fix_count := s.gps_fix_count + 1 }
    let s2 : GpsState :=
      if 1 < s1.ground_start_count then
        { s1 with ground_start_count := s1.ground_start_count - 1 }
      else if s1.ground_start_count = 1 then
        if s1.current_loc.lat = 0 then
          { s1 with ground_start_count := 5 }
        else
          let s3 := init_home i s1
          { s3 with current_loc := { s3.current_loc with alt := i.altitude },
                    ground_start_count := 0 }
      else s1
    { s2 with current_loc := { s2.current_loc with lat := i.latitude, lng := i.longitude } }
  else
    if 0 < s.GPS_failure_counter then
      { s with GPS_failure_counter := s.GPS_failure_counter - 1 }
    else s

/-- Embedding of medium-loop case 0 (part_000 lines 516-524): call
`update_GPS` while the failure counter is positive, otherwise set the
sticky `GPS_disabled` flag. -/
def gps_phase (i : GpsInput) (s : GpsState) : GpsState :=
  if 0 < s.GPS_failure_counter then update_GPS i s
  else if s.GPS_failure_counter = 0 then { s with GPS_disabled := true }
  else s

/-- Feed a list of GPS readings through consecutive `update_GPS` calls. -/
def run_update_GPS (is : List GpsInput) (s : GpsState) : GpsState :=
  is.foldl (fun t i => update_GPS i t) s

/-- Feed a list of GPS readings through consecutive medium-loop GPS
phases. -/
def run_gps_phase (is : List GpsInput) (s : GpsState) : GpsState :=
  is.foldl (fun t i => gps_phase i t) s

/-- A reading that carries a new valid fix with nonzero coordinates. -/
def goodFix (i : GpsInput) : Prop :=
  i.new_data = true ∧ i.fix = true ∧ i.latitude ≠ 0 ∧ i.longitude ≠ 0

/-- A reading that carries no new valid fix. -/
def missedFix (i : GpsInput) : Prop :=
  (i.new_data && i.fix) = false

/-- Concrete state at countdown 1 whose stored location (from the
previous fix) is nonzero. -/
def c1_state : GpsState :=
  { ground_start_count := 1, GPS_failure_counter := 3, GPS_disabled := false,
    current_loc := { lat := 100, lng := 200, alt := 0 },
    home := { lat := 0, lng := 0, alt := 0 }, home_is_set := false,
    gps_fix_count := 0 }

/-- Concrete incoming fix with a degenerate (zero) coordinate. -/
def c1_zero_fix : GpsInput :=
  { new_data := true, fix := true, latitude := 0, longitude := 0, altitude := 777 }

/-- Concrete start state with the ground-start countdown armed at 5. -/
def c1_start : GpsState :=
  { ground_start_count := 5, GPS_failure_counter := 3, GPS_disabled := false,
    current_loc := { lat := 0, lng := 0, alt := 0 },
    home := { lat := 0, lng := 0, alt := 0 }, home_is_set := false,
    gps_fix_count := 0 }

/-- A concrete valid nonzero fix, parameterised by coordinates. -/
def mkFix (la lo al : Int) : GpsInput :=
  { new_data := true, fix := true, latitude := la, longitude := lo, altitude := al }

/-- A concrete reading with no new valid fix. -/
def c2_miss : GpsInput :=
  { new_data := false, fix := false, latitude := 0, longitude := 0, altitude := 0 }

/-- Concrete healthy-counter state for the GPS failure-counter claim. -/
def c2_state : GpsState :=
  { ground_start_count := 0, GPS_failure_counter := 3, GPS_disabled := false,
    current_loc := { lat := 100, lng := 200, alt := 0 },
    home := { lat := 100, lng := 200, alt := 0 }, home_is_set := true,
    gps_fix_count := 10 }

/-- Concrete exhausted-counter state. -/
def c2_zero_state : GpsState :=
  { c2_state with GPS_failure_counter := 0, GPS_disabled := true }

/-! ## Altitude fusion (`update_alt`, part_000 lines 1106-1154) -/

/-- The `altitude_sensor` selector, `BARO` or `SONAR`. -/
inductive AltSensor
  | BARO
  | SONAR
deriving DecidableEq

/-- The slice of global state read and written by the sensor-selection
part of `update_alt`. -/
structure AltState where
  altitude_sensor : AltSensor
  baro_alt : Int
  sonar_alt : Int
  current_alt : Int
deriving DecidableEq

/-- Embedding of the sensor-selection and altitude computation of
`update_alt` (non-HIL branch).  The stored `altitude_sensor` is
overwritten with `BARO` at the top of every tick; with sonar enabled the
selector becomes `SONAR` when the barometric altitude is under 550 and
reverts to `BARO` when the sonar reading exceeds 600; the sonar reading
is clamped to 600 before use.  The previous state `s` contributes nothing
to the new selector. -/
def update_alt (sonar_enabled : Bool) (baro_reading sonar_reading home_alt : Int)
    (s : AltState) : AltState :=
  let sensor0 := AltSensor.BARO
  if sonar_enabled then
    let sensor1 := if baro_reading < 550 then AltSensor.SONAR else sensor0
    let sensor2 := if 600 < sonar_reading then AltSensor.BARO else sensor1
    if sensor2 = AltSensor.BARO then
      { altitude_sensor := sensor2, baro_alt := baro_reading, sonar_alt := sonar_reading,
        current_alt := baro_reading + home_alt }
    else
      { altitude_sensor := sensor2, baro_alt := baro_reading,
        sonar_alt := min sonar_reading 600,
        current_alt := min sonar_reading 600 + home_alt }
  else
    { altitude_sensor := sensor0, baro_alt := baro_reading, sonar_alt := s.sonar_alt,
      current_alt := baro_reading + home_alt }

/-- Number of adjacent source switches in a sequence of chosen sensors. -/
def flips : List AltSensor → Nat
  | [] => 0
  | [_] => 0
  | a :: b :: rest => (if a = b then 0 else 1) + flips (b :: rest)

/-- The chosen sources along a sweep of sonar readings at a fixed
barometric reading, all ticks starting from the same stored state. -/
def sweep_sources (baro : Int) (l : List Int) (s : AltState) : List AltSensor :=
  l.map (fun so => (update_alt true baro so 0 s).altitude_sensor)

/-- A concrete altitude state. -/
def altInit : AltState :=
  { altitude_sensor := AltSensor.BARO, baro_alt := 0, sonar_alt := 0, current_alt := 0 }

/-! ## Flight-mode state machine (`update_current_flight_mode`,
part_000 lines 807-1053) -/

/-- The nine flight modes, in the order of `flight_mode_strings`. -/
inductive Mode
  | STABILIZE
  | ACRO
  | ALT_HOLD
  | SIMPLE
  | FBW
  | AUTO
  | GCS_AUTO
  | LOITER
  | RTL
deriving DecidableEq

/-- The output/control stages a mode branch can invoke, named after the
source functions. -/
inductive Stage
  | auto_yaw
  | output_manual_yaw
  | output_manual_throttle
  | output_auto_throttle
  | control_nav_mixer
  | fbw_nav_mixer
  | output_rate_roll
  | output_stabilize_roll
  | output_rate_pitch
  | output_stabilize_pitch
  | simple_recalc
  | fbw_recalc
deriving DecidableEq

/-- Modelled from the spec: `wrap_360` is repository code not present in
the sources given; per §4.3/§8 it is modulo-360(deg*100) normalisation
into [0, 36000). -/
def wrap_360 (x : Int) : Int := x % 36000

/-- Embedding of `update_current_flight_mode` as the sequence of control
stages it invokes, together with the updated `fbw_timer` byte.  `cmdID`
is `command_must_ID` (the AUTO switch has only its default case live);
`acro_trigger` is the configured `ACRO_RATE_TRIGGER`; the SIMPLE gate
fires when the incremented byte timer exceeds 4, the FBW gate when it
exceeds 10, both resetting the timer to 0.  The default case of the mode
switch (reached by GCS_AUTO) invokes nothing. -/
def update_current_flight_mode (mode : Mode) (cmdID : Nat) (rc1 rc2 acro_trigger : Int)
    (fbw_timer : Nat) : List Stage × Nat :=
  match mode with
  | Mode.AUTO =>
      ([Stage.auto_yaw, Stage.control_nav_mixer, Stage.output_stabilize_roll,
        Stage.output_stabilize_pitch, Stage.output_auto_throttle], fbw_timer)
  | Mode.ACRO =>
      ([Stage.output_manual_yaw, Stage.output_manual_throttle, Stage.control_nav_mixer] ++
        (if acro_trigger ≤ |rc1| then [Stage.output_rate_roll]
         else [Stage.output_stabilize_roll]) ++
        (if acro_trigger ≤ |rc2| then [Stage.output_rate_pitch]
         else [Stage.output_stabilize_pitch]), fbw_timer)
  | Mode.STABILIZE =>
      ([Stage.output_manual_yaw, Stage.output_manual_throttle, Stage.control_nav_mixer,
        Stage.output_stabilize_roll, Stage.output_stabilize_pitch], fbw_timer)
  | Mode.SIMPLE =>
      let t2 := (fbw_timer + 1) % 256
      if 4 < t2 then
        ([Stage.simple_recalc, Stage.output_manual_yaw, Stage.output_manual_throttle,
          Stage.fbw_nav_mixer, Stage.output_stabilize_roll, Stage.output_stabilize_pitch], 0)
      else
        ([Stage.output_manual_yaw, Stage.output_manual_throttle, Stage.fbw_nav_mixer,
          Stage.output_stabilize_roll, Stage.output_stabilize_pitch], t2)
  | Mode.FBW =>
      let t2 := (fbw_timer + 1) % 256
      if 10 < t2 then
        ([Stage.fbw_recalc, Stage.output_manual_yaw, Stage.output_manual_throttle,
          Stage.fbw_nav_mixer, Stage.output_stabilize_roll, Stage.output_stabilize_pitch], 0)
      else
        ([Stage.output_manual_yaw, Stage.output_manual_throttle, Stage.fbw_nav_mixer,
          Stage.output_stabilize_roll, Stage.output_stabilize_pitch], t2)
  | Mode.ALT_HOLD =>
      ([Stage.output_manual_yaw, Stage.output_auto_throttle, Stage.control_nav_mixer,
        Stage.output_stabilize_roll, Stage.output_stabilize_pitch], fbw_timer)
  | Mode.RTL =>
      ([Stage.auto_yaw, Stage.output_auto_throttle, Stage.control_nav_mixer,
        Stage.output_stabilize_roll, Stage.output_stabilize_pitch], fbw_timer)
  | Mode.LOITER =>
      ([Stage.output_manual_yaw, Stage.output_auto_throttle, Stage.control_nav_mixer,
        Stage.output_stabilize_roll, Stage.output_stabilize_pitch], fbw_timer)
  | Mode.GCS_AUTO => ([], fbw_timer)

/-- The SIMPLE-mode sub-rate gate on the `fbw_timer` byte (part_000
lines 897-900): increment, fire and reset when the result exceeds 4. -/
def simple_gate (t : Nat) : Nat × Bool :=
  let t2 := (t + 1) % 256
  if 4 < t2 then (0, true) else (t2, false)

/-- Fire/no-fire outcomes of `n` consecutive SIMPLE-mode fast ticks
starting from timer value `t`. -/
def gate_trace : Nat → Nat → List Bool
  | _, 0 => []
  | t, n + 1 => (simple_gate t).2 :: gate_trace (simple_gate t).1 n

/-- The `counter_one_herz` byte increment performed once per medium
cycle (part_000 lines 459-462). -/
def one_herz_step (c : Nat) : Nat := (c + 1) % 256

/-- `super_slow_loop` runs in a medium cycle exactly when the incremented
counter equals 50; the counter is never reset. -/
def one_herz_fires (c : Nat) : Bool := one_herz_step c == 50

/-- Fire/no-fire outcomes of `n` consecutive medium cycles starting from
counter value `c`. -/
def one_herz_trace : Nat → Nat → List Bool
  | _, 0 => []
  | c, n + 1 => one_herz_fires c :: one_herz_trace (one_herz_step c) n

/-! ## Medium-tier navigation phase (medium_loop case 1,
part_000 lines 537-573) -/

/-- The navigation computations the phase can invoke. -/
inductive NavAct
  | navigate
  | calc_loiter_nav
  | calc_waypoint_nav
deriving DecidableEq

/-- Embedding of medium-loop case 1: SIMPLE and FBW break out before any
navigation; otherwise `navigate` runs when the GPS `new_data` flag is
set, then loiter navigation when `wp_distance < 800` and waypoint
navigation otherwise. -/
def nav_phase (mode : Mode) (new_data : Bool) (wp_distance : Int) : List NavAct :=
  if mode = Mode.SIMPLE then []
  else if mode = Mode.FBW then []
  else
    (if new_data then [NavAct.navigate] else []) ++
    (if wp_distance < 800 then [NavAct.calc_loiter_nav] else [NavAct.calc_waypoint_nav])

/-! ## SIMPLE-mode gated recomputation (part_000 lines 896-924) -/

/-- The slice of global state the SIMPLE-mode gated block reads and
writes. -/
structure SimpleState where
  fbw_timer : Nat
  current_lat : Int
  current_lng : Int
  next_wp_lat : Int
  next_wp_lng : Int
  nav_bearing : Int
  wp_distance : Int
  GPS_disabled : Bool
deriving DecidableEq

/-- Embedding of the SIMPLE-mode gated recomputation.  `bear` and `dist`
stand for `get_bearing`/`get_distance` (repository code not in the given
sources), taken as parameters; `xo`/`yo` stand for the float products
`rc_1.control_in * 0.4` / `rc_2.control_in * 0.4` truncated to long,
abstracted as integer inputs.  When the gate fires the block first
overwrites `current_loc.lat`/`current_loc.lng` with 0 unconditionally —
no GPS-health check guards it — then builds the virtual waypoint from
the stick offsets and recomputes bearing and distance from the zeroed
location. -/
def simple_mode_tick (bear dist : Int → Int → Int → Int → Int)
    (xo yo isb : Int) (s : SimpleState) : SimpleState :=
  let t2 := (s.fbw_timer + 1) % 256
  if 4 < t2 then
    let nwlat := -yo
    let nwlng := xo
    { s with fbw_timer := 0, current_lat := 0, current_lng := 0,
             next_wp_lat := nwlat, next_wp_lng := nwlng,
             nav_bearing := wrap_360 (bear 0 0 nwlat nwlng + isb),
             wp_distance := dist 0 0 nwlat nwlng }
  else { s with fbw_timer := t2 }

/-- A concrete SIMPLE-mode state holding a real GPS position, with the
gate about to fire. -/
def c9_state : SimpleState :=
  { fbw_timer := 4, current_lat := 12345, current_lng := 67890,
    next_wp_lat := 0, next_wp_lng := 0, nav_bearing := 0, wp_distance := 0,
    GPS_disabled := false }

end ArduCopter

namespace SITL

/-! ## X-Plane simulator bridge (`libraries/SITL/SIM_XPlane.cpp`) -/

/-- The 64-bit complement `~m` of a `uint64` mask. -/
def notMask64 (m : Nat) : Nat := (2 ^ 64 - 1) ^^^ m

/-- The data codes set in a 64-bit mask, listed in increasing order and
truncated to the first 8 — the DSEL/USEL packet loops run
`for i in 0..63 while count < 8`. -/
def sentCodes (m : Nat) : List Nat :=
  ((List.range 64).filter (fun i => m.testBit i)).take 8

/-- Outcome of one `XPlane::select_data` call: the code lists put into
the DSEL and USEL packets (a packet is sent only when its list is
nonempty) and the updated `unselected_mask` member. -/
structure SelectResult where
  sel_sent : List Nat
  usel_sent : List Nat
  unselected_after : Nat

/-- Embedding of `XPlane::select_data` (lines 60-97).  The DSEL packet
carries the codes of `sel_mask`; the USEL packet carries the codes of
`usel_mask &= ~unselected_mask` (so that an output is de-selected only
once), and those codes are merged into `unselected_mask`.  The 64-bit
masks are modelled as naturals; `& ~x` is `&&& notMask64 x`. -/
def select_data (usel_mask sel_mask unselected_mask : Nat) : SelectResult :=
  let usel2 := usel_mask &&& notMask64 unselected_mask
  { sel_sent := sentCodes sel_mask
    usel_sent := sentCodes usel2
    unselected_after := unselected_mask ||| usel2 }

/-- Run a sequence of `(usel_mask, sel_mask)` requests through
`select_data`, threading `unselected_mask`; returns the per-call USEL
code lists and the final mask. -/
def run_selects : List (Nat × Nat) → Nat → List (List Nat) × Nat
  | [], m => ([], m)
  | (u, s) :: rest, m =>
      let r := select_data u s m
      let p := run_selects rest r.unselected_after
      (r.usel_sent :: p.1, p.2)

/-- The 5-byte packet marker bytes of a DATA packet, `'D' 'A' 'T' 'A'`. -/
def dataMarker : List Nat := [68, 65, 84, 65]

/-- The codes of the complete 36-byte records of a payload, as scanned by
the `while (len >= pkt_len)` loop: the first byte of each record. -/
def recCodes (l : List Nat) : List Nat :=
  if h : 36 ≤ l.length then
    l.headD 0 :: recCodes (l.drop 36)
  else []
termination_by l.length
decreasing_by simp only [List.length_drop]; omega

/-- The `data_mask` accumulated by the record loop: one bit per code
below 64. -/
def data_mask (codes : List Nat) : Nat :=
  codes.foldl (fun m c => if c < 64 then m ||| 2 ^ c else m) 0

/-- Outcome of one `XPlane::receive_data` call: its return value, the
codes of the records whose sensor updates were applied, and whether the
failure path extrapolated the sensors (rather than freezing because more
than 200 ms passed since the last valid data). -/
structure RxResult where
  ret : Bool
  applied_codes : List Nat
  extrapolated : Bool
deriving DecidableEq

/-- The `failed:` label of `receive_data` (lines 336-354): return false,
but extrapolate sensors by 1 ms only while at most 200 ms have elapsed
since `last_data_time_ms`. -/
def rx_failed (applied : List Nat) (now last_data : Nat) : RxResult :=
  if 200 < now - last_data then
    { ret := false, applied_codes := applied, extrapolated := false }
  else
    { ret := false, applied_codes := applied, extrapolated := true }

/-- Embedding of the control flow of `XPlane::receive_data`
(lines 102-355).  A packet shorter than `pkt_len + 5 = 41` bytes or not
starting with the `DATA` marker goes straight to the failure path with
no record parsed; otherwise the record loop applies every complete
record and, when the accumulated `data_mask` differs from
`required_mask` by bits not yet handled, the call still takes the
failure path (after requesting a data-selection change); else it
succeeds.  Time values are the unsigned milliseconds counters. -/
def receive_data (required_mask unselected_mask : Nat) (pkt : List Nat)
    (now last_data : Nat) : RxResult :=
  if pkt.length < 41 ∨ pkt.take 4 ≠ dataMarker then
    rx_failed [] now last_data
  else
    let codes := recCodes (pkt.drop 5)
    let mask := data_mask codes
    if mask ≠ required_mask then
      let usel := (mask &&& notMask64 required_mask) &&& notMask64 unselected_mask
      let sel := required_mask &&& notMask64 mask
      if usel ≠ 0 ∨ sel ≠ 0 then rx_failed codes now last_data
      else { ret := true, applied_codes := codes, extrapolated := false }
    else { ret := true, applied_codes := codes, extrapolated := false }

end SITL

namespace ArduCopter

/-! ## Theorems: GPS claims -/

lemma gps_countdown_step (i : GpsInput) (s : GpsState)
    (hn : i.new_data = true) (hf : i.fix = true) (hg : 1 < s.ground_start_count) :
    update_GPS i s =
      { s with GPS_failure_counter := 3, gps_fix_count := s.gps_fix_count + 1,
               ground_start_count := s.ground_start_count - 1,
               current_loc := { s.current_loc with lat := i.latitude, lng := i.longitude } } := by
  simp [update_GPS, hn, hf, hg, Nat.not_lt.2 (Nat.le_of_lt_succ (Nat.lt_succ_of_lt hg))]

lemma gps_latch_step (i : GpsInput) (s : GpsState)
    (hn : i.new_data = true) (hf : i.fix = true) (hg : s.ground_start_count = 1)
    (hlat : s.current_loc.lat ≠ 0) :
    update_GPS i s =
      { s with GPS_failure_counter := 3, gps_fix_count := s.gps_fix_count + 1,
               ground_start_count := 0,
               home := { lat := i.latitude, lng := i.longitude, alt := i.altitude },
               home_is_set := true,
               current_loc := { lat := i.latitude, lng := i.longitude, alt := i.altitude } } := by
  simp [update_GPS, init_home, hn, hf, hg, hlat]

lemma gps_reset_step (i : GpsInput) (s : GpsState)
    (hn : i.new_data = true) (hf : i.fix = true) (hg : s.ground_start_count = 1)
    (hlat : s.current_loc.lat = 0) :
    update_GPS i s =
      { s with GPS_failure_counter := 3, gps_fix_count := s.gps_fix_count + 1,
               ground_start_count := 5,
               current_loc := { s.current_loc with lat := i.latitude, lng := i.longitude } } := by
  simp [update_GPS, hn, hf, hg, hlat]

lemma gps_phase_miss (i : GpsInput) (s : GpsState)
    (hm : missedFix i) (h : 0 < s.GPS_failure_counter) :
    gps_phase i s = { s with GPS_failure_counter := s.GPS_failure_counter - 1 } := by
  have hb : (i.new_data && i.fix) = false := hm
  simp [gps_phase, update_GPS, h, hb]

lemma update_GPS_good_counter (i : GpsInput) (s : GpsState)
    (hn : i.new_data = true) (hf : i.fix = true) :
    (update_GPS i s).GPS_failure_counter = 3 := by
  simp only [update_GPS, hn, hf, Bool.and_self, if_true]
  split
  · rfl
  · split
    · split
      · rfl
      · rfl
    · rfl

/-- Claim C1 (amended): starting from `ground_start_count = 5`, five
consecutive valid nonzero fixes latch `home` with the fifth fix's
latitude, longitude and altitude and leave `ground_start_count = 0`; but
the degenerate-coordinate guard at countdown 1 inspects the *stored*
`current_loc.lat` (written from the previous fix), not the incoming fix:
when that stored latitude is zero the countdown restarts at 5 and home is
left untouched. -/
theorem C1_ground_start_latch :
    (∀ (s : GpsState) (i1 i2 i3 i4 i5 : GpsInput),
      s.ground_start_count = 5 →
      goodFix i1 → goodFix i2 → goodFix i3 → goodFix i4 → goodFix i5 →
      ((run_update_GPS [i1, i2, i3, i4, i5] s).home =
          { lat := i5.latitude, lng := i5.longitude, alt := i5.altitude } ∧
        (run_update_GPS [i1, i2, i3, i4, i5] s).home_is_set = true ∧
        (run_update_GPS [i1, i2, i3, i4, i5] s).ground_start_count = 0 ∧
        (run_update_GPS [i1, i2, i3, i4, i5] s).current_loc =
          { lat := i5.latitude, lng := i5.longitude, alt := i5.altitude })) ∧
    (∀ (s : GpsState) (i : GpsInput),
      s.ground_start_count = 1 → s.current_loc.lat = 0 →
      i.new_data = true → i.fix = true →
      ((update_GPS i s).ground_start_count = 5 ∧
        (update_GPS i s).home = s.home ∧
        (update_GPS i s).home_is_set = s.home_is_set)) := by
  constructor
  · intro s i1 i2 i3 i4 i5 hg h1 h2 h3 h4 h5
    obtain ⟨h1n, h1f, h1la, -⟩ := h1
    obtain ⟨h2n, h2f, h2la, -⟩ := h2
    obtain ⟨h3n, h3f, h3la, -⟩ := h3
    obtain ⟨h4n, h4f, h4la, -⟩ := h4
    obtain ⟨h5n, h5f, h5la, -⟩ := h5
    have e : run_update_GPS [i1, i2, i3, i4, i5] s =
        update_GPS i5 (update_GPS i4 (update_GPS i3 (update_GPS i2 (update_GPS i1 s)))) := rfl
    rw [e, gps_countdown_step i1 s h1n h1f (by omega)]
    rw [gps_countdown_step i2 _ h2n h2f (by simp [hg])]
    rw [gps_countdown_step i3 _ h3n h3f (by simp [hg])]
    rw [gps_countdown_step i4 _ h4n h4f (by simp [hg])]
    rw [gps_latch_step i5 _ h5n h5f (by simp [hg]) (by simpa using h4la)]
    simp
  · intro s i hg hlat hn hf
    rw [gps_reset_step i s hn hf hg hlat]
    simp

/-- Claim C1 counterexample: at countdown 1 with a nonzero stored
latitude, an incoming zero-coordinate fix does *not* restart the
countdown — home is latched from the degenerate fix itself. -/
theorem C1_counterexample :
    (update_GPS c1_zero_fix c1_state).ground_start_count ≠ 5 ∧
    (update_GPS c1_zero_fix c1_state).ground_start_count = 0 ∧
    (update_GPS c1_zero_fix c1_state).home_is_set = true ∧
    (update_GPS c1_zero_fix c1_state).home.lat = 0 := by decide

/-- Claim C1 witness: the amended latch behaviour evaluated at a concrete
five-fix run. -/
theorem C1_witness :
    (run_update_GPS [mkFix 11 12 13, mkFix 21 22 23, mkFix 31 32 33,
        mkFix 41 42 43, mkFix 51 52 53] c1_start).home =
      { lat := 51, lng := 52, alt := 53 } ∧
    (run_update_GPS [mkFix 11 12 13, mkFix 21 22 23, mkFix 31 32 33,
        mkFix 41 42 43, mkFix 51 52 53] c1_start).ground_start_count = 0 := by
  have h := C1_ground_start_latch.1 c1_start (mkFix 11 12 13) (mkFix 21 22 23)
    (mkFix 31 32 33) (mkFix 41 42 43) (mkFix 51 52 53) (by decide)
    ⟨rfl, rfl, by decide, by decide⟩ ⟨rfl, rfl, by decide, by decide⟩
    ⟨rfl, rfl, by decide, by decide⟩ ⟨rfl, rfl, by decide, by decide⟩
    ⟨rfl, rfl, by decide, by decide⟩
  exact ⟨h.1, h.2.2.1⟩

/-- Claim C2 (amended): from `GPS_failure_counter = 3`, three consecutive
GPS phases without a valid fix drive the counter to 0 but leave
`GPS_disabled` still false; the flag is raised (sticky) on the *fourth*
phase.  A valid fix resets the counter to 3 from any *nonzero* value;
once the counter is 0 the phase no longer consults the GPS at all, so a
fix cannot reset it and the disabled state is permanent. -/
theorem C2_gps_failure_counter :
    (∀ (s : GpsState) (m1 m2 m3 i4 : GpsInput),
      s.GPS_failure_counter = 3 → s.GPS_disabled = false →
      missedFix m1 → missedFix m2 → missedFix m3 →
      ((run_gps_phase [m1, m2, m3] s).GPS_failure_counter = 0 ∧
        (run_gps_phase [m1, m2, m3] s).GPS_disabled = false ∧
        (gps_phase i4 (run_gps_phase [m1, m2, m3] s)).GPS_disabled = true ∧
        (gps_phase i4 (run_gps_phase [m1, m2, m3] s)).GPS_failure_counter = 0)) ∧
    (∀ (s : GpsState) (i : GpsInput),
      0 < s.GPS_failure_counter → i.new_data = true → i.fix = true →
      (gps_phase i s).GPS_failure_counter = 3) ∧
    (∀ (s : GpsState) (i : GpsInput),
      s.GPS_failure_counter = 0 →
      ((gps_phase i s).GPS_failure_counter = 0 ∧ (gps_phase i s).GPS_disabled = true)) := by
  refine ⟨?_, ?_, ?_⟩
  · intro s m1 m2 m3 i4 hc hd hm1 hm2 hm3
    have e : run_gps_phase [m1, m2, m3] s =
        gps_phase m3 (gps_phase m2 (gps_phase m1 s)) := rfl
    rw [e, gps_phase_miss m1 s hm1 (by omega)]
    rw [gps_phase_miss m2 _ hm2 (by simp [hc])]
    rw [gps_phase_miss m3 _ hm3 (by simp [hc])]
    refine ⟨by simp [hc], by simpa using hd, ?_, ?_⟩
    · simp [gps_phase, hc]
    · simp [gps_phase, hc]
  · intro s i h hn hf
    rw [gps_phase, if_pos h]
    exact update_GPS_good_counter i s hn hf
  · intro s i h
    simp [gps_phase, h]

/-- Claim C2 counterexample: three consecutive missed-fix GPS phases from
counter 3 leave `GPS_disabled` still false (the claim says true), and a
valid fix arriving with the counter at 0 leaves it at 0 (the claim says
it resets to 3 from any lower value). -/
theorem C2_counterexample :
    (run_gps_phase [c2_miss, c2_miss, c2_miss] c2_state).GPS_disabled = false ∧
    (run_gps_phase [c2_miss, c2_miss, c2_miss] c2_state).GPS_failure_counter = 0 ∧
    (gps_phase (mkFix 100 200 0) c2_zero_state).GPS_failure_counter = 0 := by decide

/-- Claim C2 witness: the amended counter behaviour at a concrete state
and input sequence. -/
theorem C2_witness :
    (gps_phase c2_miss (run_gps_phase [c2_miss, c2_miss, c2_miss] c2_state)).GPS_disabled
      = true ∧
    (gps_phase (mkFix 9 9 9) c2_state).GPS_failure_counter = 3 := by
  have h1 := (C2_gps_failure_counter.1 c2_state c2_miss c2_miss c2_miss c2_miss
    (by decide) (by decide) rfl rfl rfl).2.2.1
  have h2 := C2_gps_failure_counter.2.1 c2_state (mkFix 9 9 9)
    (by decide) (by decide) (by decide)
  exact ⟨h1, h2⟩

/-! ## Theorems: altitude fusion (C3) -/

lemma update_alt_sensor_eval (s : AltState) (so : Int) :
    (update_alt true 500 so 0 s).altitude_sensor =
      if so ≤ 600 then AltSensor.SONAR else AltSensor.BARO := by
  by_cases h : 600 < so
  · have h2 : ¬ so ≤ 600 := by omega
    simp [update_alt, h, h2]
  · have h2 : so ≤ 600 := by omega
    simp [update_alt, h, h2]

lemma flips_all_eq (c : AltSensor) :
    ∀ l : List AltSensor, (∀ x ∈ l, x = c) → flips l = 0 := by
  intro l
  induction l with
  | nil => intro _; rfl
  | cons a tail ih =>
    cases tail with
    | nil => intro _; rfl
    | cons b rest =>
      intro h
      have ha : a = c := h a (by simp)
      have hb : b = c := h b (by simp)
      have ht : flips (b :: rest) = 0 := ih (fun x hx => h x (by simp [hx]))
      subst ha
      subst hb
      simp [flips, ht]

lemma flips_threshold_map (f : Int → AltSensor)
    (hf : ∀ so : Int, f so = if so ≤ 600 then AltSensor.SONAR else AltSensor.BARO) :
    ∀ l : List Int, l.Sorted (· ≤ ·) → flips (l.map f) ≤ 1 := by
  intro l
  induction l with
  | nil => intro _; simp [flips]
  | cons a tail ih =>
    cases tail with
    | nil => intro _; simp [flips]
    | cons b rest =>
      intro hl
      have hab : a ≤ b := (List.sorted_cons.1 hl).1 b (by simp)
      have htl : (b :: rest).Sorted (· ≤ ·) := (List.sorted_cons.1 hl).2
      have hbr : ∀ r ∈ rest, b ≤ r := (List.sorted_cons.1 htl).1
      simp only [List.map_cons]
      show (if f a = f b then 0 else 1) + flips (f b :: rest.map f) ≤ 1
      by_cases hfab : f a = f b
      · have h1 := ih htl
        simp only [List.map_cons] at h1
        simpa [hfab] using h1
      · have hb6 : ¬ b ≤ 600 := by
          intro hb6
          have ha6 : a ≤ 600 := le_trans hab hb6
          rw [hf a, hf b, if_pos ha6, if_pos hb6] at hfab
          exact hfab rfl
        have hall : ∀ x ∈ f b :: rest.map f, x = AltSensor.BARO := by
          intro x hx
          rcases List.mem_cons.1 hx with hxb | hxr
          · rw [hxb, hf b, if_neg hb6]
          · rcases List.mem_map.1 hxr with ⟨r, hr, hxe⟩
            have hr6 : ¬ r ≤ 600 := by
              have := hbr r hr
              omega
            rw [← hxe, hf r, if_neg hr6]
        have h0 : flips (f b :: rest.map f) = 0 :=
          flips_all_eq AltSensor.BARO _ hall
        simp [hfab, h0]

/-- Claim C3 (amended): with sonar enabled, SONAR is chosen exactly when
the barometric altitude is below 550 *and* the sonar reading is at most
600 (the threshold is exclusive: a reading of exactly 600 still selects
SONAR); the selection is recomputed from the current readings alone —
the stored source is reset to BARO at the start of every tick, so the
previous tick's choice has no effect; and with the barometric altitude
fixed at 500 the chosen source flips at most once along any monotone
sweep of sonar readings. -/
theorem C3_alt_source :
    (∀ (s : AltState) (baro sonar h : Int),
      ((update_alt true baro sonar h s).altitude_sensor = AltSensor.SONAR ↔
        (baro < 550 ∧ sonar ≤ 600))) ∧
    (∀ (s1 s2 : AltState) (e : Bool) (baro sonar h : Int),
      (update_alt e baro sonar h s1).altitude_sensor =
        (update_alt e baro sonar h s2).altitude_sensor) ∧
    (∀ (s : AltState) (l : List Int), l.Sorted (· ≤ ·) →
      flips (sweep_sources 500 l s) ≤ 1) := by
  refine ⟨?_, ?_, ?_⟩
  · intro s baro sonar h
    by_cases h1 : baro < 550 <;> by_cases h2 : 600 < sonar <;>
      simp [update_alt, h1, h2] <;> omega
  · intro s1 s2 e baro sonar h
    cases e <;>
      by_cases h1 : baro < 550 <;> by_cases h2 : 600 < sonar <;>
        simp [update_alt, h1, h2]
  · intro s l hl
    exact flips_threshold_map _ (fun so => update_alt_sensor_eval s so) l hl

/-- Claim C3 counterexample: with the barometer at 500 and a sonar
reading of exactly 600 — not below 600 — the code still selects SONAR,
so SONAR is not chosen "only while the sonar reading is below 600". -/
theorem C3_counterexample :
    (update_alt true 500 600 0 altInit).altitude_sensor = AltSensor.SONAR ∧
    ¬ ((600 : Int) < 600) := by decide

/-- Claim C3 witness: the amended selection rule and the at-most-one-flip
property evaluated at concrete readings. -/
theorem C3_witness :
    (update_alt true 500 300 0 altInit).altitude_sensor = AltSensor.SONAR ∧
    flips (sweep_sources 500 [0, 200, 400, 601, 650] altInit) ≤ 1 := by
  refine ⟨?_, ?_⟩
  · exact (C3_alt_source.1 altInit 500 300 0).2 ⟨by decide, by decide⟩
  · exact C3_alt_source.2.2 altInit [0, 200, 400, 601, 650]
      (by simp [List.sorted_cons])

/-! ## Theorems: flight-mode dispatch (C4) -/

/-- Claim C4 (amended): every mode except two invokes both
`output_stabilize_roll` and `output_stabilize_pitch` on every fast-tier
evaluation; ACRO invokes the stabilize stage on an axis exactly when that
axis's stick deflection is below `ACRO_RATE_TRIGGER`, substituting rate
control above it; and GCS_AUTO falls into the dispatch's default case,
which invokes no output stage at all. -/
theorem C4_stabilize_stage :
    ∀ (mode : Mode) (cmdID : Nat) (rc1 rc2 trig : Int) (t : Nat),
      (mode ≠ Mode.ACRO → mode ≠ Mode.GCS_AUTO →
        Stage.output_stabilize_roll ∈
            (update_current_flight_mode mode cmdID rc1 rc2 trig t).1 ∧
          Stage.output_stabilize_pitch ∈
            (update_current_flight_mode mode cmdID rc1 rc2 trig t).1) ∧
      ((Stage.output_stabilize_roll ∈
            (update_current_flight_mode Mode.ACRO cmdID rc1 rc2 trig t).1 ↔ |rc1| < trig) ∧
        (Stage.output_stabilize_pitch ∈
            (update_current_flight_mode Mode.ACRO cmdID rc1 rc2 trig t).1 ↔ |rc2| < trig)) ∧
      (update_current_flight_mode Mode.GCS_AUTO cmdID rc1 rc2 trig t).1 = [] := by
  intro mode cmdID rc1 rc2 trig t
  refine ⟨?_, ⟨?_, ?_⟩, rfl⟩
  · intro hacro hgcs
    cases mode <;> simp_all [update_current_flight_mode] <;> split_ifs <;> simp
  · by_cases h1 : trig ≤ |rc1| <;> by_cases h2 : trig ≤ |rc2| <;>
      simp [update_current_flight_mode, h1, h2] <;> omega
  · by_cases h1 : trig ≤ |rc1| <;> by_cases h2 : trig ≤ |rc2| <;>
      simp [update_current_flight_mode, h1, h2] <;> omega

/-- Claim C4 counterexample: in ACRO with full stick deflection (4500)
and trigger 100 the roll axis gets rate control, not stabilization, and
a GCS_AUTO fast-tier evaluation invokes no stage at all. -/
theorem C4_counterexample :
    Stage.output_stabilize_roll ∉
        (update_current_flight_mode Mode.ACRO 0 4500 0 100 0).1 ∧
    Stage.output_stabilize_pitch ∉
        (update_current_flight_mode Mode.ACRO 0 0 4500 100 0).1 ∧
    (update_current_flight_mode Mode.GCS_AUTO 0 0 0 100 0).1 = [] := by decide

/-- Claim C4 witness: the amended dispatch facts at concrete inputs. -/
theorem C4_witness :
    Stage.output_stabilize_roll ∈
        (update_current_flight_mode Mode.STABILIZE 0 4500 4500 100 0).1 ∧
    Stage.output_stabilize_roll ∈
        (update_current_flight_mode Mode.ACRO 0 50 0 100 0).1 := by
  refine ⟨?_, ?_⟩
  · exact ((C4_stabilize_stage Mode.STABILIZE 0 4500 4500 100 0).1
      (by decide) (by decide)).1
  · exact ((C4_stabilize_stage Mode.ACRO 0 50 0 100 0).2.1).1.2 (by decide)

/-! ## Theorems: scheduler sub-rates (C5, C6) -/

set_option maxRecDepth 4000

/-- Claim C5 evaluation: `counter_one_herz` is incremented once per
medium cycle and compared for equality with 50 without ever being reset,
so from a fresh counter `super_slow_loop` fires once in the first 100
medium cycles (at cycle 50 only — the claimed second firing at cycle 100
does not happen) and fires again only at cycle 306, after the byte
counter wraps. -/
theorem C5_super_slow_rate :
    (one_herz_trace 0 50).count true = 1 ∧
    (one_herz_trace 0 100).count true = 1 ∧
    (one_herz_trace 0 306).count true = 2 ∧
    one_herz_fires 305 = true := by decide

/-- Claim C6 evaluation: the SIMPLE-mode gate fires when the incremented
`fbw_timer` exceeds 4, i.e. on every 5th fast tick (20 Hz), not every 4th
(25 Hz): from a fresh timer the first 4 ticks fire zero times, the 5th
fires, and 20 ticks fire 4 times; and the gate embedded in
`update_current_flight_mode` for SIMPLE agrees with `simple_gate`. -/
theorem C6_simple_gate_rate :
    (gate_trace 0 4).count true = 0 ∧
    (gate_trace 0 5).count true = 1 ∧
    (gate_trace 0 20).count true = 4 ∧
    (∀ (cmdID : Nat) (rc1 rc2 trig : Int) (t : Nat),
      (Stage.simple_recalc ∈ (update_current_flight_mode Mode.SIMPLE cmdID rc1 rc2 trig t).1 ↔
          (simple_gate t).2 = true) ∧
      (update_current_flight_mode Mode.SIMPLE cmdID rc1 rc2 trig t).2 = (simple_gate t).1) := by
  refine ⟨by decide, by decide, by decide, ?_⟩
  intro cmdID rc1 rc2 trig t
  by_cases h : 4 < (t + 1) % 256 <;>
    simp [update_current_flight_mode, simple_gate, h]

/-! ## Theorems: navigation dispatch (C7) -/

/-- Claim C7 (amended): on a medium-tier navigation phase in any mode
other than SIMPLE and FBW (which break out before any navigation),
loiter navigation is computed exactly when `wp_distance < 800` and
waypoint navigation exactly when `wp_distance ≥ 800`. -/
theorem C7_nav_dispatch :
    ∀ (mode : Mode) (nd : Bool) (d : Int),
      mode ≠ Mode.SIMPLE → mode ≠ Mode.FBW →
      ((NavAct.calc_loiter_nav ∈ nav_phase mode nd d ↔ d < 800) ∧
        (NavAct.calc_waypoint_nav ∈ nav_phase mode nd d ↔ 800 ≤ d)) := by
  intro mode nd d hs hf
  by_cases h : d < 800 <;>
    simp [nav_phase, hs, hf, h] <;> omega

/-- Claim C7 counterexample: in SIMPLE mode the navigation phase computes
nothing even with `wp_distance = 0 < 800`, so loiter navigation is not
computed "exactly when wp_distance < 800" on every phase. -/
theorem C7_counterexample :
    nav_phase Mode.SIMPLE true 0 = [] ∧ (0 : Int) < 800 := by decide

/-- Claim C7 witness: the amended dispatch at concrete distances in AUTO
mode. -/
theorem C7_witness :
    NavAct.calc_loiter_nav ∈ nav_phase Mode.AUTO true 799 ∧
    NavAct.calc_waypoint_nav ∈ nav_phase Mode.AUTO true 800 := by
  refine ⟨?_, ?_⟩
  · exact ((C7_nav_dispatch Mode.AUTO true 799 (by decide) (by decide)).1).2 (by decide)
  · exact ((C7_nav_dispatch Mode.AUTO true 800 (by decide) (by decide)).2).2 (by decide)

/-! ## Theorems: SIMPLE-mode frame effect (C9) -/

/-- Claim C9: whenever the SIMPLE-mode gated recomputation fires, it
overwrites `current_loc.lat` and `current_loc.lng` with 0 unconditionally
— for every prior state, every stick input and every bearing/distance
function, hence regardless of GPS health. -/
theorem C9_simple_zeroes_location :
    ∀ (bear dist : Int → Int → Int → Int → Int) (xo yo isb : Int) (s : SimpleState),
      4 < (s.fbw_timer + 1) % 256 →
      ((simple_mode_tick bear dist xo yo isb s).current_lat = 0 ∧
        (simple_mode_tick bear dist xo yo isb s).current_lng = 0 ∧
        (simple_mode_tick bear dist xo yo isb s).next_wp_lat = -yo ∧
        (simple_mode_tick bear dist xo yo isb s).next_wp_lng = xo ∧
        (simple_mode_tick bear dist xo yo isb s).GPS_disabled = s.GPS_disabled) := by
  intro bear dist xo yo isb s h
  simp [simple_mode_tick, h]

/-- Claim C9 witness: a concrete healthy-GPS state whose stored position
is destroyed by the gated recomputation. -/
theorem C9_witness :
    (simple_mode_tick (fun _ _ _ _ => 0) (fun _ _ _ _ => 0) 100 100 0 c9_state).current_lat
        = 0 ∧
    (simple_mode_tick (fun _ _ _ _ => 0) (fun _ _ _ _ => 0) 100 100 0 c9_state).current_lng
        = 0 := by
  have h := C9_simple_zeroes_location (fun _ _ _ _ => 0) (fun _ _ _ _ => 0)
    100 100 0 c9_state (by decide)
  exact ⟨h.1, h.2.1⟩

end ArduCopter

namespace SITL

/-! ## Theorems: X-Plane bridge (C8, C10) -/

/-- Claim C8: a packet shorter than 41 bytes or without the DATA marker
causes `receive_data` to apply no sensor update from the packet and
return false, and the failure is tolerated with sensor extrapolation
exactly while at most 200 ms have elapsed since the last valid data. -/
theorem C8_malformed_packet :
    ∀ (required unselected : Nat) (pkt : List Nat) (now last_data : Nat),
      (pkt.length < 41 ∨ pkt.take 4 ≠ dataMarker) →
      ((receive_data required unselected pkt now last_data).ret = false ∧
        (receive_data required unselected pkt now last_data).applied_codes = [] ∧
        ((receive_data required unselected pkt now last_data).extrapolated = true ↔
          now - last_data ≤ 200)) := by
  intro required unselected pkt now last_data h
  by_cases h2 : 200 < now - last_data <;>
    simp [receive_data, rx_failed, h, h2] <;> omega

/-- Claim C8 witness: a concrete 3-byte junk packet is rejected, and is
extrapolated over while within the 200 ms window. -/
theorem C8_witness :
    (receive_data 0 0 [1, 2, 3] 100 50).ret = false ∧
    (receive_data 0 0 [1, 2, 3] 100 50).applied_codes = [] ∧
    (receive_data 0 0 [1, 2, 3] 100 50).extrapolated = true ∧
    (receive_data 0 0 [1, 2, 3] 500 50).extrapolated = false := by
  have h := C8_malformed_packet 0 0 [1, 2, 3] 100 50 (by decide)
  have h2 := C8_malformed_packet 0 0 [1, 2, 3] 500 50 (by decide)
  refine ⟨h.1, h.2.1, h.2.2.2 (by decide), ?_⟩
  cases he : (receive_data 0 0 [1, 2, 3] 500 50).extrapolated
  · rfl
  · exact absurd (h2.2.2.1 he) (by decide)

lemma mem_sentCodes {i m : Nat} (h : i ∈ sentCodes m) :
    m.testBit i = true ∧ i < 64 := by
  have h2 : i ∈ (List.range 64).filter (fun i => m.testBit i) :=
    List.mem_of_mem_take h
  rcases List.mem_filter.1 h2 with ⟨hr, hb⟩
  exact ⟨hb, List.mem_range.1 hr⟩

lemma sentCodes_nodup (m : Nat) : (sentCodes m).Nodup :=
  ((List.nodup_range 64).filter _).sublist (List.take_sublist 8 _)

lemma select_grows (u s m i : Nat) (h : m.testBit i = true) :
    (select_data u s m).unselected_after.testBit i = true := by
  simp [select_data, Nat.testBit_lor, h]

lemma select_sent_fresh (u s m i : Nat) (h : i ∈ (select_data u s m).usel_sent) :
    m.testBit i = false ∧ (select_data u s m).unselected_after.testBit i = true := by
  have h2 := mem_sentCodes (show i ∈ sentCodes (u &&& notMask64 m) from h)
  have hfresh : m.testBit i = false := by
    have hb := h2.1
    simp only [notMask64, Nat.testBit_land, Nat.testBit_xor,
      Nat.testBit_two_pow_sub_one] at hb
    simp [h2.2] at hb
    exact hb.2
  refine ⟨hfresh, ?_⟩
  show (m ||| (u &&& notMask64 m)).testBit i = true
  simp [Nat.testBit_lor, h2.1]

lemma run_selects_grows :
    ∀ (reqs : List (Nat × Nat)) (m i : Nat), m.testBit i = true →
      (run_selects reqs m).2.testBit i = true := by
  intro reqs
  induction reqs with
  | nil => intro m i h; exact h
  | cons p rest ih =>
    intro m i h
    cases p with
    | mk u s => exact ih _ i (select_grows u s m i h)

lemma run_selects_fresh :
    ∀ (reqs : List (Nat × Nat)) (m i : Nat),
      i ∈ (run_selects reqs m).1.flatten → m.testBit i = false := by
  intro reqs
  induction reqs with
  | nil => intro m i h; simp [run_selects] at h
  | cons p rest ih =>
    intro m i h
    cases p with
    | mk u s =>
      have e : (run_selects ((u, s) :: rest) m).1 =
          (select_data u s m).usel_sent ::
            (run_selects rest (select_data u s m).unselected_after).1 := rfl
      rw [e, List.flatten_cons] at h
      rcases List.mem_append.1 h with hh | ht
      · exact (select_sent_fresh u s m i hh).1
      · have h4 := ih (select_data u s m).unselected_after i ht
        cases hm : m.testBit i
        · rfl
        · exact absurd (select_grows u s m i hm) (by simp [h4])

lemma run_selects_nodup :
    ∀ (reqs : List (Nat × Nat)) (m : Nat), ((run_selects reqs m).1.flatten).Nodup := by
  intro reqs
  induction reqs with
  | nil => intro m; simp [run_selects]
  | cons p rest ih =>
    intro m
    cases p with
    | mk u s =>
      have e : (run_selects ((u, s) :: rest) m).1 =
          (select_data u s m).usel_sent ::
            (run_selects rest (select_data u s m).unselected_after).1 := rfl
      rw [e, List.flatten_cons]
      refine List.nodup_append.2 ⟨sentCodes_nodup _, ih _, ?_⟩
      intro i hi hj
      have h1 := (select_sent_fresh u s m i hi).2
      have h2 := run_selects_fresh rest (select_data u s m).unselected_after i hj
      rw [h1] at h2
      exact Bool.noConfusion h2

/-- Claim C10: across any sequence of `select_data` calls the
`unselected_mask` only grows (a set bit stays set), a code placed in a
USEL packet was not previously in the mask and is in it afterwards, and
— starting from the bridge's initial empty mask — the concatenation of
all USEL packets contains no code twice. -/
theorem C10_deselect_once :
    (∀ (u s m i : Nat), m.testBit i = true →
      (select_data u s m).unselected_after.testBit i = true) ∧
    (∀ (u s m i : Nat), i ∈ (select_data u s m).usel_sent →
      (m.testBit i = false ∧ (select_data u s m).unselected_after.testBit i = true)) ∧
    (∀ (reqs : List (Nat × Nat)) (m i : Nat), m.testBit i = true →
      (run_selects reqs m).2.testBit i = true) ∧
    (∀ reqs : List (Nat × Nat), ((run_selects reqs 0).1.flatten).Nodup) :=
  ⟨select_grows, select_sent_fresh, run_selects_grows,
    fun reqs => run_selects_nodup reqs 0⟩

/-- Claim C10 witness: a code de-selected by the first call is not sent
again by an identical second request, and the mask keeps its bits. -/
theorem C10_witness :
    (select_data 5 0 0).unselected_after.testBit 2 = true ∧
    (run_selects [(5, 0), (5, 0)] 0).1.flatten.Nodup ∧
    (run_selects [(5, 0), (5, 0)] 0).2.testBit 0 = true := by
  refine ⟨?_, C10_deselect_once.2.2.2 [(5, 0), (5, 0)], ?_⟩
  · exact (C10_deselect_once.2.1 5 0 0 2 (by decide)).2
  · exact C10_deselect_once.2.2.1 [(5, 0)] (select_data 5 0 0).unselected_after 0
      (by decide)

end SITL
